import Mathlib

/-!
Verification development for the Linear Programming Solver application
(`app.py`).  The file embeds, as executable Lean definitions, the input
validation layer (`validate_problem_input`), the solve-button gate in
`show_problem_input`, the engine-routing and exception boundary of
`solve_problem`, and the result presentation layer (`display_solution`).
External collaborators that are imported by `app.py` but whose code is not
part of the repository (the `InputParser`, the three solver classes and the
`ProblemFormatter`) are taken as parameters of the embedded functions, so
the theorems quantify over every possible behaviour of those collaborators.
-/

/-- Model of a Python float value: a finite rational, one of the two
infinities, or NaN.  Validation and display never perform arithmetic on
these values beyond comparisons, so this four-way classification is a
faithful carrier. -/
inductive PyFloat where
  | finite (q : ℚ)
  | pinf
  | ninf
  | nan
deriving DecidableEq, Repr

/-- Negation on `PyFloat`, used for a leading minus sign in a literal. -/
def negPyFloat : PyFloat → PyFloat
  | PyFloat.finite q => PyFloat.finite (-q)
  | PyFloat.pinf => PyFloat.ninf
  | PyFloat.ninf => PyFloat.pinf
  | PyFloat.nan => PyFloat.nan

/-- Numeric value of a decimal digit character, `none` on non-digits. -/
def digitVal (c : Char) : Option ℕ :=
  if c.isDigit then some (c.toNat - 48) else none

/-- All-or-nothing digit conversion of a character list. -/
def decDigits : List Char → Option (List ℕ)
  | [] => some []
  | c :: cs =>
    match digitVal c, decDigits cs with
    | some d, some ds => some (d :: ds)
    | _, _ => none

/-- Value of a digit list read in base 10, most significant first. -/
def digitsToNat (ds : List ℕ) : ℕ :=
  ds.foldl (fun a d => 10 * a + d) 0

/-- Unsigned decimal literal: digits with an optional fractional part,
at least one digit overall. -/
def parseUnsignedFloat (cs : List Char) : Option ℚ :=
  match cs.splitOn '.' with
  | [ip] =>
    match decDigits ip with
    | some ds => if ds.isEmpty then none else some (digitsToNat ds : ℚ)
    | none => none
  | [ip, fp] =>
    match decDigits ip, decDigits fp with
    | some ids, some fds =>
      if ids.isEmpty && fds.isEmpty then none
      else some ((digitsToNat ids : ℚ) + (digitsToNat fds : ℚ) / ((10 : ℚ) ^ fds.length))
    | _, _ => none
  | _ => none

/-- Unsigned part of a Python float literal: a decimal literal or one of
the special words `inf`, `infinity`, `nan` (lowercase forms). -/
def pyFloatCore (cs : List Char) : Option PyFloat :=
  if cs = "inf".data ∨ cs = "infinity".data then some PyFloat.pinf
  else if cs = "nan".data then some PyFloat.nan
  else (parseUnsignedFloat cs).map PyFloat.finite

/-- Models the Python builtin conversion `float(s)` on an already stripped
string: optional sign followed by a decimal literal or by the special
words `inf`, `infinity`, `nan`.  Returns `none` exactly when CPython's
`float` raises `ValueError` on such strings; exponent notation and
underscore separators are outside the fragment exercised here. -/
def pyFloat (s : String) : Option PyFloat :=
  match s.data with
  | [] => none
  | c :: rest =>
    if c = '-' then (pyFloatCore rest).map negPyFloat
    else if c = '+' then pyFloatCore rest
    else pyFloatCore (c :: rest)

/-- Comma-splitting on a character list, keeping empty fields, so that an
empty input yields one empty field: the semantics of Python
`s.split(m)` with a one-character separator. -/
def splitCommaChars : List Char → List (List Char)
  | [] => [[]]
  | c :: cs =>
    if c = ',' then [] :: splitCommaChars cs
    else
      match splitCommaChars cs with
      | [] => [[c]]
      | f :: rest => (c :: f) :: rest

/-- Models Python `s.split(m)`: split on every comma, keeping empty
fields. -/
def pySplitComma (s : String) : List String :=
  (splitCommaChars s.data).map (fun l => ⟨l⟩)

/-- Leading-whitespace removal on a character list. -/
def dropLeadingWs : List Char → List Char
  | [] => []
  | c :: cs => if c.isWhitespace then dropLeadingWs cs else c :: cs

/-- Models Python `s.strip()`: remove leading and trailing whitespace
(the ASCII whitespace characters suffice for the inputs at hand). -/
def pyStrip (s : String) : String :=
  ⟨(dropLeadingWs (dropLeadingWs s.data).reverse).reverse⟩

/-- The only exception kind the embedded validation body can raise:
`ValueError` from `float`, carrying its message. -/
inductive PyExn where
  | valueError (msg : String)
deriving DecidableEq, Repr

/-- Left-to-right effectful map in the `Except` monad, stopping at the
first failure: the semantics of the Python list comprehension
`[float(x.strip()) for x in s.split(m) if x.strip()]` once the filter is
applied. -/
def mapMExcept {α β ε : Type} (f : α → Except ε β) : List α → Except ε (List β)
  | [] => Except.ok []
  | x :: xs =>
    match f x with
    | Except.error e => Except.error e
    | Except.ok v =>
      match mapMExcept f xs with
      | Except.error e => Except.error e
      | Except.ok vs => Except.ok (v :: vs)

/-- Embeds the coefficient-parsing comprehension of `app.py`
(`validate_problem_input`, lines 214 and 225):
`[float(x.strip()) for x in s.split(m) if x.strip()]` — split the string
on commas, drop blank fields, convert each remaining field with `float`,
raising `ValueError` on a non-numeric field. -/
def parseCoeffList (s : String) : Except PyExn (List PyFloat) :=
  mapMExcept
    (fun x =>
      match pyFloat (pyStrip x) with
      | some v => Except.ok v
      | none => Except.error (PyExn.valueError ("could not convert string to float: " ++ pyStrip x)))
    ((pySplitComma s).filter (fun x => pyStrip x ≠ ""))

/-- A coefficient string contains a token that survives the blank filter
but is not accepted by `float`: the condition under which the parsing
comprehension raises `ValueError`. -/
def hasBadToken (s : String) : Prop :=
  ∃ x ∈ pySplitComma s, pyStrip x ≠ "" ∧ pyFloat (pyStrip x) = none

/-- One row of the constraint input table built by `show_problem_input`:
the raw coefficient text, the relation symbol, and the RHS number as
delivered by the number widget (`none` models Python `None`). -/
structure ConstraintInput where
  coefficients : String
  ctype : String
  rhs : Option PyFloat
deriving DecidableEq, Repr

/-- The dictionary returned by `validate_problem_input`: the `valid` flag,
the `error` message (present exactly on the invalid outcomes) and the
`num_variables` count (present exactly on the valid outcome). -/
structure ValidationResult where
  valid : Bool
  error : Option String
  num_variables : Option ℕ
deriving DecidableEq, Repr

/-- Embeds the constraint loop of `validate_problem_input` (app.py lines
221-231): for each constraint, reject blank coefficient text, parse the
coefficients (which may raise), reject a count different from the number
of objective variables, and reject a missing RHS.  Returns `some r` with
the first failure `r`, or `none` when every constraint passes. -/
def checkConstraints (num_vars : ℕ) : ℕ → List ConstraintInput → Except PyExn (Option ValidationResult)
  | _, [] => Except.ok none
  | i, c :: rest =>
    if pyStrip c.coefficients = "" then
      Except.ok (some ⟨false, some ("Empty coefficients in constraint " ++ toString (i + 1)), none⟩)
    else
      match parseCoeffList c.coefficients with
      | Except.error e => Except.error e
      | Except.ok ccs =>
        if ccs.length ≠ num_vars then
          Except.ok (some ⟨false,
            some ("Constraint " ++ toString (i + 1) ++ " has " ++ toString ccs.length
              ++ " variables, expected " ++ toString num_vars), none⟩)
        else if c.rhs.isNone then
          Except.ok (some ⟨false, some ("Missing RHS value in constraint " ++ toString (i + 1)), none⟩)
        else
          checkConstraints num_vars (i + 1) rest

/-- The body of the `try` block of `validate_problem_input` (app.py lines
213-233): parse the objective, reject an empty objective, then run the
constraint loop; the success dictionary carries the variable count. -/
def validateBody (obj_coeffs : String) (constraints : List ConstraintInput) :
    Except PyExn ValidationResult :=
  match parseCoeffList obj_coeffs with
  | Except.error e => Except.error e
  | Except.ok obj_list =>
    if obj_list.isEmpty then
      Except.ok ⟨false, some "Empty objective function", none⟩
    else
      match checkConstraints obj_list.length 0 constraints with
      | Except.error e => Except.error e
      | Except.ok (some r) => Except.ok r
      | Except.ok none => Except.ok ⟨true, none, some obj_list.length⟩

/-- Embeds `validate_problem_input` (app.py lines 210-238): the `try`
body together with its `except ValueError` handler, which converts the
exception into the invalid dictionary with an `Invalid number format`
message.  The function is total: no exception escapes to the caller. -/
def validate_problem_input (obj_coeffs : String) (constraints : List ConstraintInput) :
    ValidationResult :=
  match validateBody obj_coeffs constraints with
  | Except.ok r => r
  | Except.error (PyExn.valueError m) => ⟨false, some ("Invalid number format: " ++ m), none⟩

/-- Outcome of the Solve button handler in `show_problem_input`. -/
inductive GateOutcome where
  | missingInput
  | invalid (err : Option String)
  | solve (v : ValidationResult)
deriving DecidableEq, Repr

/-- Embeds the Solve button handler of `show_problem_input` (app.py lines
200-208): `solve_problem` is reached only when the objective text is
truthy (non-empty) and at least one constraint row is present and
validation succeeds; otherwise an error message is shown. -/
def solveButtonHandler (obj_coeffs : String) (constraints : List ConstraintInput) :
    GateOutcome :=
  if obj_coeffs ≠ "" ∧ constraints.length > 0 then
    let v := validate_problem_input obj_coeffs constraints
    if v.valid then GateOutcome.solve v else GateOutcome.invalid v.error
  else GateOutcome.missingInput

/-- One trace entry of a solver result, as consumed by the step renderer
of `display_solution`: title, explanation, and the optional tableau
snapshot and figure (both kept as opaque handles, since the renderer only
forwards them). -/
structure Step where
  title : String
  explanation : String
  table : Option String
  figure : Option String
deriving DecidableEq, Repr

/-- The result dictionary produced by a solver, with `Option` modelling
presence of the optional keys (`variables`, `objective_value`, `steps`,
`message`). -/
structure SolveResult where
  status : String
  «variables» : Option (List (String × PyFloat))
  objective_value : Option PyFloat
  steps : Option (List Step)
  message : Option String
deriving DecidableEq, Repr

/-- One rendered element of the Streamlit page, tagged by the widget that
produced it; the model keeps the source order of the `st.*` calls. -/
inductive DisplayItem where
  | errorMsg (text : String)
  | success (text : String)
  | warning (text : String)
  | info (text : String)
  | markdown (text : String)
  | subheader (text : String)
  | write (text : String)
  | expanderHeader (text : String)
  | dataframe (table : String)
  | pyplot (figure : String)
deriving DecidableEq, Repr

/-- Models the Python format `f(value:.4f)` applied to a float: four
fractional digits (rounding is half-up in the model; the exact rounding
mode is irrelevant to the properties proved). -/
def fmt4 : PyFloat → String
  | PyFloat.finite q =>
    let scaled : ℤ := ⌊q * 10000 + 1 / 2⌋
    let sign := if scaled < 0 then "-" else ""
    let a := scaled.natAbs
    let fs := toString (a % 10000)
    sign ++ toString (a / 10000) ++ "." ++ String.mk (List.replicate (4 - fs.length) '0') ++ fs
  | PyFloat.pinf => "inf"
  | PyFloat.ninf => "-inf"
  | PyFloat.nan => "nan"

/-- Python comparison `value > 0.001` on a float value (NaN compares
false, infinity true): used to count active variables. -/
def gtThousandth : PyFloat → Bool
  | PyFloat.finite q => (1 / 1000 : ℚ) < q
  | PyFloat.pinf => true
  | PyFloat.ninf => false
  | PyFloat.nan => false

/-- Rendering of one trace step (app.py lines 288-293): an expander whose
header carries the 1-based index and title, the explanation, and the
optional table and figure. -/
def renderStep (i : ℕ) (s : Step) : List DisplayItem :=
  [DisplayItem.expanderHeader ("Step " ++ toString i ++ ": " ++ s.title),
   DisplayItem.markdown s.explanation]
  ++ (match s.table with | some t => [DisplayItem.dataframe t] | none => [])
  ++ (match s.figure with | some f => [DisplayItem.pyplot f] | none => [])

/-- The `enumerate(result.steps, 1)` loop of app.py lines 287-293. -/
def renderSteps : ℕ → List Step → List DisplayItem
  | _, [] => []
  | i, s :: rest => renderStep i s ++ renderSteps (i + 1) rest

/-- The Solution Interpretation block of `display_solution` (app.py lines
316-333): active-variable count and the method-specific explanation. -/
def interpretationItems (vars : List (String × PyFloat)) (method : String) : List DisplayItem :=
  let total := vars.length
  let basic := (vars.filter (fun p => gtThousandth p.2)).length
  [DisplayItem.subheader "💡 Solution Interpretation",
   DisplayItem.info ("**Active Variables:** " ++ toString basic ++ " out of " ++ toString total),
   DisplayItem.markdown "Variables with positive values in the optimal solution",
   DisplayItem.info ("**Method Used:** " ++ method)]
  ++ (if method = "Graphical Method" then
        [DisplayItem.markdown "Solution found by evaluating corner points"]
      else if method = "Simplex Method" then
        [DisplayItem.markdown "Solution found through tableau iterations"]
      else
        [DisplayItem.markdown "Solution found using artificial variables"])

/-- The Learning Insights block of `display_solution` (app.py lines
351-368), emitted only for the optimal status. -/
def insightsItems (method : String) : List DisplayItem :=
  [DisplayItem.subheader "🎓 Learning Insights",
   DisplayItem.markdown "💡 In optimal solutions, at least n constraints are tight (where n = number of variables)"]
  ++ (if method = "Graphical Method" then
        [DisplayItem.markdown "📈 Graphical method shows that optimal solutions occur at corner points"]
      else [])
  ++ (if method = "Simplex Method" then
        [DisplayItem.markdown "🔢 Simplex method efficiently moves from one corner point to a better one"]
      else [])
  ++ (if method = "Big M Method" then
        [DisplayItem.markdown "🎯 Big M method handles complex constraint types by using artificial variables"]
      else [])

/-- The fixed text shown for an unbounded result (app.py lines 335-339). -/
def unboundedItems : List DisplayItem :=
  [DisplayItem.warning "⚠️ The problem is unbounded.",
   DisplayItem.markdown "**Meaning:** The objective function can be increased indefinitely.",
   DisplayItem.markdown "**Cause:** The feasible region extends infinitely in the direction of optimization.",
   DisplayItem.markdown "**Action:** Check if constraints are missing or incorrectly formulated."]

/-- The fixed text shown for an infeasible result (app.py lines 341-345). -/
def infeasibleItems : List DisplayItem :=
  [DisplayItem.errorMsg "❌ The problem is infeasible.",
   DisplayItem.markdown "**Meaning:** There is no solution that satisfies all constraints simultaneously.",
   DisplayItem.markdown "**Cause:** Constraints are contradictory or too restrictive.",
   DisplayItem.markdown "**Action:** Review constraints for conflicts or relax some requirements."]

/-- The final-solution branch of `display_solution` (app.py lines
296-348): dictionary accesses `result.variables`, `result.objective_value`
and `result.message` raise `KeyError` when the key is absent, modelled by
the `Except.error` outcome. -/
def finalSolutionItems (result : SolveResult) (method : String) :
    Except String (List DisplayItem) :=
  if result.status = "optimal" then
    match result.variables with
    | none => Except.error "KeyError: variables"
    | some vars =>
      match result.objective_value with
      | none => Except.error "KeyError: objective_value"
      | some ov =>
        Except.ok
          ([DisplayItem.success "✅ Optimal solution found!",
            DisplayItem.markdown "**Decision Variables:**"]
           ++ vars.map (fun p => DisplayItem.write (p.1 ++ " = " ++ fmt4 p.2))
           ++ [DisplayItem.markdown "**Objective Value:**",
               DisplayItem.write ("Z = " ++ fmt4 ov),
               DisplayItem.markdown "**Solution Type:**",
               DisplayItem.write "Basic Feasible Solution",
               DisplayItem.write "Corner Point of Feasible Region"]
           ++ interpretationItems vars method)
  else if result.status = "unbounded" then Except.ok unboundedItems
  else if result.status = "infeasible" then Except.ok infeasibleItems
  else Except.ok [DisplayItem.info ("Status: " ++ result.status)]

/-- Embeds `display_solution` (app.py lines 279-368).  A result with
status `error` shows only its message and returns early; otherwise the
trace is rendered when the `steps` key is present, then the Final
Solution section according to the status, then the Learning Insights for
the optimal status.  A missing dictionary key raises `KeyError`, which
propagates to the caller (`solve_problem` catches it). -/
def display_solution (result : SolveResult) (method : String) :
    Except String (List DisplayItem) :=
  if result.status = "error" then
    match result.message with
    | some m => Except.ok [DisplayItem.errorMsg m]
    | none => Except.error "KeyError: message"
  else
    let stepsPart :=
      match result.steps with
      | some steps => DisplayItem.subheader "Step-by-Step Solution" :: renderSteps 1 steps
      | none => []
    match finalSolutionItems result method with
    | Except.error e => Except.error e
    | Except.ok fin =>
      Except.ok
        (stepsPart ++ [DisplayItem.subheader "Final Solution"] ++ fin
         ++ (if result.status = "optimal" then insightsItems method else []))

/-- The parsed-problem dictionary returned by `InputParser.parse_problem`,
restricted to the keys `solve_problem` itself reads: the `error` entry
and the objective coefficient list whose length drives the Graphical
routing guard. -/
structure ParsedOut where
  error : Option String
  objective : List PyFloat
deriving DecidableEq, Repr

/-- Python truthiness of the parser's `error` entry (`None` and the empty
string are falsy). -/
def pyTruthy : Option String → Bool
  | some s => s ≠ ""
  | none => false

/-- Invoke a solver outcome and render its result: an exception from the
solver or a `KeyError` from `display_solution` propagates (app.py lines
260-274 inside the `try` block). -/
def runAndDisplay (pre : List DisplayItem) (outcome : Except String SolveResult)
    (method : String) : Except String (List DisplayItem) :=
  match outcome with
  | Except.error e => Except.error e
  | Except.ok result =>
    match display_solution result method with
    | Except.error e => Except.error e
    | Except.ok items => Except.ok (pre ++ items)

/-- The part of `solve_problem` after a successful parse with a falsy
`error` entry (app.py lines 252-274): show the formatted problem and the
method header, then dispatch on the method; the Graphical branch rejects
a problem with more than 2 objective coefficients before constructing the
solver. -/
def solveCore (parsed : ParsedOut)
    (simplexSolve graphicalSolve bigMSolve : ParsedOut → Except String SolveResult)
    (formatPb : ParsedOut → String) (method : String) :
    Except String (List DisplayItem) :=
  let pre := [DisplayItem.subheader "Problem Formulation",
              DisplayItem.markdown (formatPb parsed),
              DisplayItem.subheader ("Solution using " ++ method)]
  if method = "Simplex Method" then
    runAndDisplay pre (simplexSolve parsed) method
  else if method = "Graphical Method" then
    if parsed.objective.length > 2 then
      Except.ok (pre ++ [DisplayItem.errorMsg "Graphical method only supports problems with 2 variables."])
    else
      runAndDisplay pre (graphicalSolve parsed) method
  else
    runAndDisplay pre (bigMSolve parsed) method

/-- The `try` body of `solve_problem` (app.py lines 242-274).  The parser,
the three solvers and the formatter are parameters: they are imported
collaborators whose code is outside this repository, so the theorems
quantify over their behaviour.  `parseOutcome` is the outcome of
`parser.parse_problem` on the submitted input (an exception, or the
parsed dictionary). -/
def solveBody (parseOutcome : Except String ParsedOut)
    (simplexSolve graphicalSolve bigMSolve : ParsedOut → Except String SolveResult)
    (formatPb : ParsedOut → String) (method : String) :
    Except String (List DisplayItem) :=
  match parseOutcome with
  | Except.error e => Except.error e
  | Except.ok parsed =>
    if pyTruthy parsed.error then
      Except.ok [DisplayItem.errorMsg (parsed.error.getD "")]
    else
      solveCore parsed simplexSolve graphicalSolve bigMSolve formatPb method

/-- Embeds `solve_problem` (app.py lines 240-277): the `try` body wrapped
in the `except Exception` handler that turns any exception raised during
parsing, solving or display into an error banner.  The returned list is
everything rendered on the page; the function is total, so no exception
reaches the caller. -/
def solve_problem (parseOutcome : Except String ParsedOut)
    (simplexSolve graphicalSolve bigMSolve : ParsedOut → Except String SolveResult)
    (formatPb : ParsedOut → String) (method : String) : List DisplayItem :=
  match solveBody parseOutcome simplexSolve graphicalSolve bigMSolve formatPb method with
  | Except.ok items => items
  | Except.error e => [DisplayItem.errorMsg ("An error occurred while solving the problem: " ++ e)]

/-- Decidable equality of `Except` outcomes, for evaluating the embedded
functions on concrete inputs. -/
def exceptDecEq {ε α : Type} [DecidableEq ε] [DecidableEq α] : DecidableEq (Except ε α) := fun x y =>
  match x, y with
  | Except.ok a, Except.ok b =>
    if h : a = b then Decidable.isTrue (by rw [h]) else Decidable.isFalse (by simp [h])
  | Except.error a, Except.error b =>
    if h : a = b then Decidable.isTrue (by rw [h]) else Decidable.isFalse (by simp [h])
  | Except.ok _, Except.error _ => Decidable.isFalse (by simp)
  | Except.error _, Except.ok _ => Decidable.isFalse (by simp)

instance {ε α : Type} [DecidableEq ε] [DecidableEq α] : DecidableEq (Except ε α) := exceptDecEq

theorem mapMExcept_ok_length {α β ε : Type} (f : α → Except ε β) :
    ∀ (l : List α) (r : List β), mapMExcept f l = Except.ok r → r.length = l.length := by
  intro l
  induction l with
  | nil => intro r h; simp [mapMExcept] at h; simp [← h]
  | cons x xs ih =>
    intro r h
    simp only [mapMExcept] at h
    cases hf : f x with
    | error e => rw [hf] at h; exact absurd h (by simp)
    | ok v =>
      rw [hf] at h
      cases hm : mapMExcept f xs with
      | error e => rw [hm] at h; exact absurd h (by simp)
      | ok vs =>
        rw [hm] at h
        have hr : r = v :: vs := by
          have := h
          simp at this
          exact this.symm
        subst hr
        simp [ih vs hm]

theorem mapMExcept_ok_forall {α β ε : Type} (f : α → Except ε β) :
    ∀ (l : List α) (r : List β), mapMExcept f l = Except.ok r →
      ∀ x ∈ l, ∃ v, f x = Except.ok v := by
  intro l
  induction l with
  | nil => intro r _ x hx; exact absurd hx (by simp)
  | cons y ys ih =>
    intro r h x hx
    simp only [mapMExcept] at h
    cases hf : f y with
    | error e => rw [hf] at h; exact absurd h (by simp)
    | ok v =>
      rw [hf] at h
      cases hm : mapMExcept f ys with
      | error e => rw [hm] at h; exact absurd h (by simp)
      | ok vs =>
        rcases List.mem_cons.mp hx with hxy | hxys
        · subst hxy; exact ⟨v, hf⟩
        · exact ih vs hm x hxys

/-- A non-numeric non-blank field makes the coefficient parse raise. -/
theorem parseCoeffList_bad_token (s : String)
    (h : ∃ x ∈ pySplitComma s, pyStrip x ≠ "" ∧ pyFloat (pyStrip x) = none) :
    ∃ e, parseCoeffList s = Except.error e := by
  rcases h with ⟨x, hmem, hne, hnone⟩
  cases hp : parseCoeffList s with
  | error e => exact ⟨e, rfl⟩
  | ok l =>
    exfalso
    have hx : x ∈ (pySplitComma s).filter (fun x => pyStrip x ≠ "") := by
      simp [List.mem_filter, hmem, hne]
    have := mapMExcept_ok_forall _ _ l hp x hx
    rcases this with ⟨v, hv⟩
    rw [hnone] at hv
    exact absurd hv (by simp)

theorem checkConstraints_ok_none (nv : ℕ) :
    ∀ (i : ℕ) (cs : List ConstraintInput),
      checkConstraints nv i cs = Except.ok none →
      ∀ c ∈ cs, pyStrip c.coefficients ≠ "" ∧
        (∃ l, parseCoeffList c.coefficients = Except.ok l ∧ l.length = nv) ∧
        c.rhs.isSome := by
  intro i cs
  induction cs generalizing i with
  | nil => intro _ c hc; exact absurd hc (by simp)
  | cons c0 rest ih =>
    intro h c hc
    simp only [checkConstraints] at h
    by_cases hemp : pyStrip c0.coefficients = ""
    · rw [if_pos hemp] at h; exact absurd h (by simp)
    · rw [if_neg hemp] at h
      cases hp : parseCoeffList c0.coefficients with
      | error e => rw [hp] at h; exact absurd h (by simp)
      | ok ccs =>
        rw [hp] at h
        simp only at h
        by_cases hlen : ccs.length ≠ nv
        · rw [if_pos hlen] at h; exact absurd h (by simp)
        · rw [if_neg hlen] at h
          by_cases hrhs : c0.rhs.isNone
          · rw [if_pos hrhs] at h; exact absurd h (by simp)
          · rw [if_neg hrhs] at h
            rcases List.mem_cons.mp hc with hceq | hcrest
            · subst hceq
              refine ⟨hemp, ⟨ccs, hp, by omega⟩, ?_⟩
              cases hv : c.rhs with
              | none => rw [hv] at hrhs; simp at hrhs
              | some v => simp
            · exact ih (i + 1) h c hcrest

theorem checkConstraints_ok_some (nv : ℕ) :
    ∀ (i : ℕ) (cs : List ConstraintInput) (r : ValidationResult),
      checkConstraints nv i cs = Except.ok (some r) →
      r.valid = false ∧ r.error.isSome ∧ r.num_variables = none := by
  intro i cs
  induction cs generalizing i with
  | nil => intro r h; simp [checkConstraints] at h
  | cons c0 rest ih =>
    intro r h
    simp only [checkConstraints] at h
    split at h
    · simp only [Except.ok.injEq, Option.some.injEq] at h
      subst h
      exact ⟨rfl, by simp, rfl⟩
    · split at h
      · exact absurd h (by simp)
      · split at h
        · simp only [Except.ok.injEq, Option.some.injEq] at h
          subst h
          exact ⟨rfl, by simp, rfl⟩
        · split at h
          · simp only [Except.ok.injEq, Option.some.injEq] at h
            subst h
            exact ⟨rfl, by simp, rfl⟩
          · exact ih (i + 1) r h

theorem validateBody_ok (obj : String) (cs : List ConstraintInput) (r : ValidationResult)
    (hb : validateBody obj cs = Except.ok r) :
    (r.valid = true →
      r.error = none ∧
      ∃ ol, parseCoeffList obj = Except.ok ol ∧ ol ≠ [] ∧
        r.num_variables = some ol.length ∧
        ∀ c ∈ cs, pyStrip c.coefficients ≠ "" ∧
          (∃ l, parseCoeffList c.coefficients = Except.ok l ∧ l.length = ol.length) ∧
          c.rhs.isSome) ∧
    (r.valid = false → r.error.isSome ∧ r.num_variables = none) := by
  unfold validateBody at hb
  split at hb
  · exact absurd hb (by simp)
  · rename_i ol hp
    split at hb
    · rename_i hemp
      simp only [Except.ok.injEq] at hb
      subst hb
      exact ⟨by intro h; simp at h, by intro _; simp⟩
    · rename_i hemp
      split at hb
      · exact absurd hb (by simp)
      · rename_i r0 hc
        simp only [Except.ok.injEq] at hb
        subst hb
        have h2 := checkConstraints_ok_some ol.length 0 cs r0 hc
        constructor
        · intro h
          rw [h] at h2
          exact absurd h2.1 (by simp)
        · intro _
          exact ⟨h2.2.1, h2.2.2⟩
      · rename_i hc
        simp only [Except.ok.injEq] at hb
        subst hb
        constructor
        · intro _
          exact ⟨rfl, ol, hp, by simpa using hemp, rfl,
            checkConstraints_ok_none ol.length 0 cs hc⟩
        · intro h; simp at h

/-- Case analysis of `validate_problem_input`: on the valid outcome the
error entry is absent, the objective parsed to a non-empty list whose
length is reported, and every constraint passed all three checks; on the
invalid outcome an error message is present and no variable count is
reported. -/
theorem validate_cases (obj : String) (cs : List ConstraintInput) :
    ((validate_problem_input obj cs).valid = true →
      (validate_problem_input obj cs).error = none ∧
      ∃ ol, parseCoeffList obj = Except.ok ol ∧ ol ≠ [] ∧
        (validate_problem_input obj cs).num_variables = some ol.length ∧
        ∀ c ∈ cs, pyStrip c.coefficients ≠ "" ∧
          (∃ l, parseCoeffList c.coefficients = Except.ok l ∧ l.length = ol.length) ∧
          c.rhs.isSome) ∧
    ((validate_problem_input obj cs).valid = false →
      (validate_problem_input obj cs).error.isSome ∧
      (validate_problem_input obj cs).num_variables = none) := by
  unfold validate_problem_input
  cases hb : validateBody obj cs with
  | error e =>
    cases e with
    | valueError m => exact ⟨by intro h; simp at h, by intro _; simp⟩
  | ok r => exact validateBody_ok obj cs r hb

/-- C3: validation fails whenever some constraint's parsed coefficient
list does not have exactly as many entries as the parsed objective
coefficient list, and validation succeeds only if every constraint's
coefficient count equals the objective's coefficient count. -/
theorem validate_dimension_mismatch_rejected (obj : String) (cs : List ConstraintInput) :
    ((validate_problem_input obj cs).valid = true →
      ∃ ol, parseCoeffList obj = Except.ok ol ∧
        ∀ c ∈ cs, ∃ l, parseCoeffList c.coefficients = Except.ok l ∧ l.length = ol.length) ∧
    (∀ ol c l, parseCoeffList obj = Except.ok ol → c ∈ cs →
      parseCoeffList c.coefficients = Except.ok l → l.length ≠ ol.length →
      (validate_problem_input obj cs).valid = false ∧
      (validate_problem_input obj cs).error.isSome) := by
  have M := validate_cases obj cs
  constructor
  · intro hv
    rcases M.1 hv with ⟨_, ol, hol, _, _, hall⟩
    exact ⟨ol, hol, fun c hc => (hall c hc).2.1⟩
  · intro ol c l hol hc hl hne
    cases hvalid : (validate_problem_input obj cs).valid with
    | true =>
      exfalso
      rcases M.1 hvalid with ⟨_, ol2, hol2, _, _, hall⟩
      rw [hol] at hol2
      have holeq : ol = ol2 := by simpa using hol2
      rcases (hall c hc).2.1 with ⟨l2, hl2, hlen2⟩
      rw [hl] at hl2
      have hleq : l = l2 := by simpa using hl2
      exact hne (by rw [hleq, hlen2, ← holeq])
    | false => exact ⟨rfl, (M.2 hvalid).1⟩

/-- Witness for C3: the objective `3, 2` with a one-coefficient
constraint is rejected. -/
theorem validate_dimension_mismatch_rejected_witness :
    (validate_problem_input "3, 2" [⟨"1", "≤", some (PyFloat.finite 1)⟩]).valid = false ∧
    (validate_problem_input "3, 2" [⟨"1", "≤", some (PyFloat.finite 1)⟩]).error.isSome :=
  (validate_dimension_mismatch_rejected "3, 2" [⟨"1", "≤", some (PyFloat.finite 1)⟩]).2
    [PyFloat.finite 3, PyFloat.finite 2] ⟨"1", "≤", some (PyFloat.finite 1)⟩ [PyFloat.finite 1]
    (by decide) (by decide) (by decide) (by decide)

/-- C4: an input containing a non-numeric coefficient token or an empty
objective function makes validation return the invalid outcome together
with a human-readable reason — the `ValueError` is caught inside
`validate_problem_input`, which stays a total function, so no exception
reaches the caller. -/
theorem validate_bad_token_or_empty_objective_rejected (obj : String) (cs : List ConstraintInput)
    (h : hasBadToken obj ∨ (∃ c ∈ cs, hasBadToken c.coefficients) ∨
      parseCoeffList obj = Except.ok []) :
    (validate_problem_input obj cs).valid = false ∧
    (validate_problem_input obj cs).error.isSome := by
  have M := validate_cases obj cs
  cases hvalid : (validate_problem_input obj cs).valid with
  | false => exact ⟨rfl, (M.2 hvalid).1⟩
  | true =>
    exfalso
    rcases M.1 hvalid with ⟨_, ol, hol, holne, _, hall⟩
    rcases h with hbad | ⟨c, hc, hbad⟩ | hempty
    · rcases parseCoeffList_bad_token obj hbad with ⟨e, he⟩
      rw [hol] at he
      exact absurd he (by simp)
    · rcases (hall c hc).2.1 with ⟨l, hl, _⟩
      rcases parseCoeffList_bad_token _ hbad with ⟨e, he⟩
      rw [hl] at he
      exact absurd he (by simp)
    · rw [hempty] at hol
      have : ([] : List PyFloat) = ol := by simpa using hol
      exact holne this.symm

/-- Witness for C4: the objective `3, a` has the non-numeric token `a`
and is rejected with a reason. -/
theorem validate_bad_token_or_empty_objective_rejected_witness :
    hasBadToken "3, a" ∧
    (validate_problem_input "3, a" []).valid = false ∧
    (validate_problem_input "3, a" []).error.isSome :=
  ⟨by unfold hasBadToken; decide,
   validate_bad_token_or_empty_objective_rejected "3, a" [] (Or.inl (by unfold hasBadToken; decide))⟩

/-- C5: an input whose constraint list is empty is judged not
well-formed: the Solve gate of `show_problem_input` reports the
missing-input error before any solving, for every objective text. -/
theorem empty_constraints_judged_not_well_formed (obj : String) :
    solveButtonHandler obj [] = GateOutcome.missingInput := by
  simp [solveButtonHandler]

/-- Counterexample for C6: a constraint whose right-hand side is the
non-finite value `inf` passes validation, so validation does not fail on
every non-finite right-hand side. -/
theorem validate_accepts_nonfinite_rhs :
    validate_problem_input "3, 2" [⟨"1, 1", "≤", some PyFloat.pinf⟩] =
      ⟨true, none, some 2⟩ := by
  decide

/-- C6 (amended): validation fails whenever some constraint's right-hand
side is missing (`None`); validation succeeds only when every
constraint's right-hand side value is present, but its finiteness is not
checked. -/
theorem validate_requires_rhs_present (obj : String) (cs : List ConstraintInput)
    (hv : (validate_problem_input obj cs).valid = true) :
    ∀ c ∈ cs, c.rhs.isSome := by
  rcases (validate_cases obj cs).1 hv with ⟨_, ol, _, _, _, hall⟩
  exact fun c hc => (hall c hc).2.2

/-- Witness for C6: a well-formed two-variable input passes validation
and every constraint of it carries a right-hand side. -/
theorem validate_requires_rhs_present_witness :
    (validate_problem_input "3, 2" [⟨"1, 1", "≤", some (PyFloat.finite 5)⟩]).valid = true ∧
    ∀ c ∈ [(⟨"1, 1", "≤", some (PyFloat.finite 5)⟩ : ConstraintInput)], c.rhs.isSome :=
  ⟨by decide, validate_requires_rhs_present "3, 2" [⟨"1, 1", "≤", some (PyFloat.finite 5)⟩] (by decide)⟩

/-- C9: on every input, `validate_problem_input` returns normally with a
boolean `valid` flag, an error string exactly when invalid, and a
variable count exactly when valid; no exception propagates to the caller
(the function is total by construction). -/
theorem validate_total_and_result_shape (obj : String) (cs : List ConstraintInput) :
    ((validate_problem_input obj cs).valid = true ∧
      (validate_problem_input obj cs).error = none ∧
      (validate_problem_input obj cs).num_variables.isSome) ∨
    ((validate_problem_input obj cs).valid = false ∧
      (validate_problem_input obj cs).error.isSome ∧
      (validate_problem_input obj cs).num_variables = none) := by
  have M := validate_cases obj cs
  cases hv : (validate_problem_input obj cs).valid with
  | true =>
    left
    rcases M.1 hv with ⟨he, ol, _, _, hnum, _⟩
    exact ⟨rfl, he, by rw [hnum]; simp⟩
  | false =>
    right
    exact ⟨rfl, (M.2 hv).1, (M.2 hv).2⟩

/-- C10: coefficient parsing silently drops blank tokens between commas —
a successfully parsed coefficient list has exactly one entry per
non-blank comma-separated token, and the input `3,,2` with constraint
text `3, , 2` is accepted as a two-variable problem. -/
theorem parse_counts_nonblank_comma_tokens :
    (∀ s l, parseCoeffList s = Except.ok l →
      l.length = ((pySplitComma s).filter (fun x => pyStrip x ≠ "")).length) ∧
    validate_problem_input "3,,2" [⟨"3, , 2", "≤", some (PyFloat.finite 5)⟩] =
      ⟨true, none, some 2⟩ := by
  constructor
  · intro s l h
    exact mapMExcept_ok_length _ _ l h
  · decide

/-- Witness for C10: `3,,2` parses to exactly two coefficients, the
number of its non-blank comma-separated tokens. -/
theorem parse_counts_nonblank_comma_tokens_witness :
    parseCoeffList "3,,2" = Except.ok [PyFloat.finite 3, PyFloat.finite 2] ∧
    ([PyFloat.finite 3, PyFloat.finite 2] : List PyFloat).length =
      ((pySplitComma "3,,2").filter (fun x => pyStrip x ≠ "")).length :=
  ⟨by decide, parse_counts_nonblank_comma_tokens.1 "3,,2" _ (by decide)⟩

/-- C7: the presentation layer reads and displays the variables mapping
and the objective value exactly when the Result status is optimal: for a
non-optimal status the rendering is independent of those two fields (they
are never accessed), while for the optimal status both are rendered — and
reading them is an actual dictionary access, which raises `KeyError` when
the key is absent. -/
theorem display_reads_variables_objective_iff_optimal (r : SolveResult) (m : String) :
    (r.status ≠ "optimal" →
      display_solution { r with «variables» := none, objective_value := none } m =
        display_solution r m) ∧
    (r.status = "optimal" → ∀ vs ov, r.«variables» = some vs → r.objective_value = some ov →
      ∃ items, display_solution r m = Except.ok items ∧
        DisplayItem.write ("Z = " ++ fmt4 ov) ∈ items ∧
        ∀ p ∈ vs, DisplayItem.write (p.1 ++ " = " ++ fmt4 p.2) ∈ items) ∧
    (r.status = "optimal" → r.«variables» = none →
      display_solution r m = Except.error "KeyError: variables") := by
  refine ⟨?_, ?_, ?_⟩
  · intro hne
    by_cases herr : r.status = "error"
    · simp [display_solution, herr]
    · simp [display_solution, herr, finalSolutionItems, hne]
  · intro hopt vs ov hv ho
    simp only [display_solution, finalSolutionItems, hopt, hv, ho]
    simp only [show ("optimal" = "error") = False by simp, if_false, if_true]
    refine ⟨_, rfl, ?_, ?_⟩
    · exact List.mem_append_left _ (List.mem_append_right _
        (List.mem_append_left _ (List.mem_append_right _ (by simp))))
    · intro p hp
      exact List.mem_append_left _ (List.mem_append_right _
        (List.mem_append_left _ (List.mem_append_left _
          (List.mem_append_right _ (List.mem_map_of_mem _ hp)))))
  · intro hopt hv
    simp [display_solution, finalSolutionItems, hopt, hv]

/-- Witness for C7: an optimal result with one variable and objective
value 7 renders both fields. -/
theorem display_reads_variables_objective_iff_optimal_witness :
    ∃ items,
      display_solution
        ⟨"optimal", some [("x1", PyFloat.finite 2)], some (PyFloat.finite 7), none, none⟩
        "Simplex Method" = Except.ok items ∧
      DisplayItem.write ("Z = " ++ fmt4 (PyFloat.finite 7)) ∈ items ∧
      ∀ p ∈ [("x1", PyFloat.finite 2)],
        DisplayItem.write (p.1 ++ " = " ++ fmt4 p.2) ∈ items :=
  (display_reads_variables_objective_iff_optimal
    ⟨"optimal", some [("x1", PyFloat.finite 2)], some (PyFloat.finite 7), none, none⟩
    "Simplex Method").2.1 rfl [("x1", PyFloat.finite 2)] (PyFloat.finite 7) rfl rfl

/-- Counterexample for C8: an unbounded result carrying the message
`custom-cause-text` is rendered as the fixed unbounded explanation; the
output equals the canned list and is byte-for-byte the same as for the
identical result without a message, so the message field is not rendered. -/
theorem display_unbounded_ignores_message_field :
    display_solution ⟨"unbounded", none, none, none, some "custom-cause-text"⟩ "Simplex Method" =
      Except.ok ([DisplayItem.subheader "Final Solution"] ++ unboundedItems) ∧
    display_solution ⟨"unbounded", none, none, none, some "custom-cause-text"⟩ "Simplex Method" =
      display_solution ⟨"unbounded", none, none, none, none⟩ "Simplex Method" := by
  exact ⟨by decide, by decide⟩

/-- C8 (amended): the Result's message field is rendered only for the
error status, where it is the whole output; for the unbounded and
infeasible statuses the rendering does not depend on the message field —
fixed explanatory text is shown instead. -/
theorem display_renders_message_only_for_error_status (r : SolveResult) (m : String) :
    (r.status = "error" → ∀ msg, r.message = some msg →
      display_solution r m = Except.ok [DisplayItem.errorMsg msg]) ∧
    ((r.status = "unbounded" ∨ r.status = "infeasible") →
      display_solution { r with message := none } m = display_solution r m) := by
  refine ⟨?_, ?_⟩
  · intro herr msg hmsg
    simp [display_solution, herr, hmsg]
  · intro hst
    rcases hst with hst | hst <;>
      simp [display_solution, finalSolutionItems, hst]

/-- Witness for C8: an error result with message `boom` renders exactly
that message, and an unbounded result renders independently of its
message. -/
theorem display_renders_message_only_for_error_status_witness :
    display_solution ⟨"error", none, none, none, some "boom"⟩ "Simplex Method" =
      Except.ok [DisplayItem.errorMsg "boom"] ∧
    display_solution ⟨"unbounded", none, none, none, none⟩ "Simplex Method" =
      display_solution ⟨"unbounded", none, none, none, some "x"⟩ "Simplex Method" :=
  ⟨(display_renders_message_only_for_error_status
      ⟨"error", none, none, none, some "boom"⟩ "Simplex Method").1 rfl "boom" rfl,
   (display_renders_message_only_for_error_status
      ⟨"unbounded", none, none, none, some "x"⟩ "Simplex Method").2 (Or.inl rfl)⟩

/-- Counterexample for C1: a parsed problem with one decision variable
(variable count 1 ≠ 2) submitted with the Graphical method is not
rejected — the Graphical solver is invoked and its result is rendered
(here an unbounded outcome), and the rejection banner does not appear. -/
theorem graphical_method_one_variable_invokes_solver :
    solve_problem (Except.ok ⟨none, [PyFloat.finite 1]⟩)
      (fun _ => Except.error "simplex not invoked")
      (fun _ => Except.ok ⟨"unbounded", none, none, none, none⟩)
      (fun _ => Except.error "big m not invoked")
      (fun _ => "P") "Graphical Method" =
      [DisplayItem.subheader "Problem Formulation", DisplayItem.markdown "P",
       DisplayItem.subheader "Solution using Graphical Method",
       DisplayItem.subheader "Final Solution"] ++ unboundedItems ∧
    DisplayItem.errorMsg "Graphical method only supports problems with 2 variables." ∉
      solve_problem (Except.ok ⟨none, [PyFloat.finite 1]⟩)
        (fun _ => Except.error "simplex not invoked")
        (fun _ => Except.ok ⟨"unbounded", none, none, none, none⟩)
        (fun _ => Except.error "big m not invoked")
        (fun _ => "P") "Graphical Method" := by
  exact ⟨by decide, by decide⟩

/-- C1 (amended): with the Graphical method selected, a successfully
parsed problem is rejected before the Graphical solver is invoked exactly
when the number of decision variables exceeds 2; for a variable count of
at most 2 (including 1) the solver runs and the page shows its rendered
result. -/
theorem graphical_method_rejects_only_more_than_two_variables
    (parsed : ParsedOut) (s g b : ParsedOut → Except String SolveResult)
    (fmtP : ParsedOut → String) (hne : parsed.error = none) :
    (parsed.objective.length > 2 →
      solve_problem (Except.ok parsed) s g b fmtP "Graphical Method" =
        [DisplayItem.subheader "Problem Formulation", DisplayItem.markdown (fmtP parsed),
         DisplayItem.subheader "Solution using Graphical Method",
         DisplayItem.errorMsg "Graphical method only supports problems with 2 variables."]) ∧
    (parsed.objective.length ≤ 2 →
      solveBody (Except.ok parsed) s g b fmtP "Graphical Method" =
        runAndDisplay [DisplayItem.subheader "Problem Formulation", DisplayItem.markdown (fmtP parsed),
          DisplayItem.subheader ("Solution using " ++ "Graphical Method")] (g parsed) "Graphical Method") := by
  refine ⟨?_, ?_⟩
  · intro hlen
    simp [solve_problem, solveBody, solveCore, pyTruthy, hne, hlen]
  · intro hlen
    simp [solveBody, solveCore, pyTruthy, hne, Nat.not_lt.mpr hlen]

/-- Witness for C1 (amended): a three-variable problem is rejected with
the banner, and a two-variable problem is routed to the Graphical
solver. -/
theorem graphical_method_rejects_only_more_than_two_variables_witness :
    solve_problem (Except.ok ⟨none, [PyFloat.finite 1, PyFloat.finite 1, PyFloat.finite 1]⟩)
      (fun _ => Except.error "s") (fun _ => Except.error "g") (fun _ => Except.error "b")
      (fun _ => "P") "Graphical Method" =
      [DisplayItem.subheader "Problem Formulation", DisplayItem.markdown "P",
       DisplayItem.subheader "Solution using Graphical Method",
       DisplayItem.errorMsg "Graphical method only supports problems with 2 variables."] ∧
    solveBody (Except.ok ⟨none, [PyFloat.finite 1, PyFloat.finite 1]⟩)
      (fun _ => Except.error "s") (fun _ => Except.error "g") (fun _ => Except.error "b")
      (fun _ => "P") "Graphical Method" =
      runAndDisplay [DisplayItem.subheader "Problem Formulation", DisplayItem.markdown "P",
        DisplayItem.subheader ("Solution using " ++ "Graphical Method")]
        ((fun _ => Except.error "g")
          (⟨none, [PyFloat.finite 1, PyFloat.finite 1]⟩ : ParsedOut)) "Graphical Method" :=
  ⟨(graphical_method_rejects_only_more_than_two_variables
      ⟨none, [PyFloat.finite 1, PyFloat.finite 1, PyFloat.finite 1]⟩
      (fun _ => Except.error "s") (fun _ => Except.error "g") (fun _ => Except.error "b")
      (fun _ => "P") rfl).1 (by decide),
   (graphical_method_rejects_only_more_than_two_variables
      ⟨none, [PyFloat.finite 1, PyFloat.finite 1]⟩
      (fun _ => Except.error "s") (fun _ => Except.error "g") (fun _ => Except.error "b")
      (fun _ => "P") rfl).2 (by decide)⟩

/-- C2: for every solve invocation, any exception raised during parsing
or solving is caught at the solve boundary and reported as a displayed
error banner instead of crashing the caller, while the algorithmic
outcomes unbounded and infeasible are delivered as Result status values:
the display layer accepts them and renders their outcome sections without
raising. -/
theorem solve_boundary_catches_exceptions_and_status_outcomes :
    (∀ (p : Except String ParsedOut) (s g b : ParsedOut → Except String SolveResult)
       (fmtP : ParsedOut → String) (method e : String),
      solveBody p s g b fmtP method = Except.error e →
      solve_problem p s g b fmtP method =
        [DisplayItem.errorMsg ("An error occurred while solving the problem: " ++ e)]) ∧
    (∀ (r : SolveResult) (method : String),
      r.status = "unbounded" ∨ r.status = "infeasible" →
      ∃ items, display_solution r method = Except.ok items ∧
        ((r.status = "unbounded" → DisplayItem.warning "⚠️ The problem is unbounded." ∈ items) ∧
         (r.status = "infeasible" → DisplayItem.errorMsg "❌ The problem is infeasible." ∈ items))) := by
  refine ⟨?_, ?_⟩
  · intro p s g b fmtP method e h
    simp [solve_problem, h]
  · intro r method hst
    rcases hst with hst | hst
    · simp only [display_solution, finalSolutionItems, hst]
      simp only [show ("unbounded" = "error") = False by simp,
        show ("unbounded" = "optimal") = False by simp,
        show ("unbounded" = "unbounded") = True by simp, if_false, if_true]
      refine ⟨_, rfl, ?_, ?_⟩
      · intro _
        exact List.mem_append_left _ (List.mem_append_right _ (by simp [unboundedItems]))
      · intro hc
        simp at hc
    · simp only [display_solution, finalSolutionItems, hst]
      simp only [show ("infeasible" = "error") = False by simp,
        show ("infeasible" = "optimal") = False by simp,
        show ("infeasible" = "unbounded") = False by simp,
        show ("infeasible" = "infeasible") = True by simp, if_false, if_true]
      refine ⟨_, rfl, ?_, ?_⟩
      · intro hc
        simp at hc
      · intro _
        exact List.mem_append_left _ (List.mem_append_right _ (by simp [infeasibleItems]))

/-- Witness for C2: a raising parser is reported as a banner, and an
unbounded result is rendered as a status outcome. -/
theorem solve_boundary_catches_exceptions_and_status_outcomes_witness :
    solve_problem (Except.error "parser exception")
      (fun _ => Except.error "s") (fun _ => Except.error "g") (fun _ => Except.error "b")
      (fun _ => "P") "Simplex Method" =
      [DisplayItem.errorMsg ("An error occurred while solving the problem: " ++ "parser exception")] ∧
    (∃ items,
      display_solution (⟨"unbounded", none, none, none, none⟩ : SolveResult) "Simplex Method" =
        Except.ok items ∧
      (((⟨"unbounded", none, none, none, none⟩ : SolveResult).status = "unbounded" →
          DisplayItem.warning "⚠️ The problem is unbounded." ∈ items) ∧
       ((⟨"unbounded", none, none, none, none⟩ : SolveResult).status = "infeasible" →
          DisplayItem.errorMsg "❌ The problem is infeasible." ∈ items))) :=
  ⟨solve_boundary_catches_exceptions_and_status_outcomes.1 (Except.error "parser exception")
      (fun _ => Except.error "s") (fun _ => Except.error "g") (fun _ => Except.error "b")
      (fun _ => "P") "Simplex Method" "parser exception" rfl,
   solve_boundary_catches_exceptions_and_status_outcomes.2
      ⟨"unbounded", none, none, none, none⟩ "Simplex Method" (Or.inl rfl)⟩
